import Mathlib

/-!
Shallow embedding of `src/n8n_export_workflows.py` (repository `stack_pier`).

The script is a one-shot exporter: it reads configuration from the
environment, lists workflows from a remote n8n instance over HTTP (with a
versioned endpoint and a legacy fallback), fetches each workflow's detail,
writes one JSON file per workflow plus an aggregated bundle, and prints a
summary.  The embedding below models:

* the pure string sanitizers `safe_name` (lines 30-34) and `safe_id`
  (lines 36-39), over Lean `String` (a list of Unicode scalar values, the
  same data model as a Python `str` without lone surrogates);
* Python JSON values (`Json`), Python truthiness, `dict.get`, and the
  `x or y` idiom;
* the HTTP wrapper `api_get` (lines 47-59) as a pure function of the
  response the server would give to a (path, params) request; a `Server`
  is the response function, so one run of the script is deterministic;
* the enumerator `list_workflows` (lines 61-73), the detail fetcher
  `get_workflow` (lines 75-86), and the export loop plus bundle writing
  (lines 88-121) as a state-passing loop that records every file write
  as a (path, written JSON value) pair in order;
* the module-level startup code (lines 13-28): environment reads, the
  `int(...)` timeout parse, the required-configuration checks, and (on
  the success path only) the creation of the output directory.

Machine-level aspects that the script does not touch (actual sockets,
actual file descriptors) are abstracted into the `Server` response
function and the recorded write list; everything else follows the source
line by line.
-/

/-- The set of characters matched by Python's regex class `\s` on `str`
(equivalently, the characters `c` with `c.isspace()`, which is also the
set stripped by `str.strip()` with no argument): `\t \n \v \f \r`,
`\x1c`-`\x1f`, space, NEL `\x85`, NBSP `\xa0`, and the Unicode space
separators. -/
def isPySpace (c : Char) : Bool :=
  let n := c.toNat
  decide ((0x9 ≤ n ∧ n ≤ 0xd) ∨ (0x1c ≤ n ∧ n ≤ 0x20) ∨ n = 0x85 ∨ n = 0xa0 ∨
    n = 0x1680 ∨ (0x2000 ≤ n ∧ n ≤ 0x200a) ∨ n = 0x2028 ∨ n = 0x2029 ∨
    n = 0x202f ∨ n = 0x205f ∨ n = 0x3000)

/-- Characters replaced by `safe_name`'s first substitution, the regex
class `[<>:"/\\|?*\x00-\x1F]` (line 32): the nine punctuation characters
plus the C0 control range `U+0000`-`U+001F`. -/
def illegalFnameChar (c : Char) : Bool :=
  c == '<' || c == '>' || c == ':' || c == '"' || c == '/' || c == '\\' ||
  c == '|' || c == '?' || c == '*' || decide (c.toNat ≤ 0x1f)

/-- Embeds `re.sub(r'[<>:"/\\|?*\x00-\x1F]', "_", name)` (line 32). -/
def replaceIllegal (l : List Char) : List Char :=
  l.map (fun c => if illegalFnameChar c then '_' else c)

/-- Worker for `re.sub(r"\s+", " ", name)` (line 33): each maximal run of
whitespace characters becomes a single space.  The flag records whether
the previous character was part of a whitespace run. -/
def collapseWsAux : Bool → List Char → List Char
  | _, [] => []
  | inRun, c :: rest =>
    if isPySpace c then
      if inRun then collapseWsAux true rest
      else ' ' :: collapseWsAux true rest
    else c :: collapseWsAux false rest

/-- Embeds `re.sub(r"\s+", " ", name)` (line 33). -/
def collapseWs (l : List Char) : List Char := collapseWsAux false l

/-- Left half of Python `str.strip()`: drop leading whitespace. -/
def lstripWsL : List Char → List Char
  | [] => []
  | c :: rest => if isPySpace c then lstripWsL rest else c :: rest

/-- Right half of Python `str.strip()`: drop trailing whitespace. -/
def rstripWsL : List Char → List Char
  | [] => []
  | c :: rest =>
    match rstripWsL rest with
    | [] => if isPySpace c then [] else [c]
    | d :: r => c :: d :: r

/-- Python `str.strip()` with no argument (line 33). -/
def stripWsL (l : List Char) : List Char := rstripWsL (lstripWsL l)

/-- Embeds `safe_name` (lines 30-34).  Note the order in the source: the
`name or "workflow"` fallback (line 31, Python truthiness, i.e. the empty
string) runs BEFORE the two substitutions, the strip, and the `[:120]`
truncation. -/
def safe_name (name : String) : String :=
  ⟨(stripWsL (collapseWs (replaceIllegal
      (if name = "" then "workflow" else name).data))).take 120⟩

/-- The character class kept by `safe_id`, `[A-Za-z0-9._-]` (line 38). -/
def idOkChar (c : Char) : Bool :=
  (decide ('A' ≤ c ∧ c ≤ 'Z')) || (decide ('a' ≤ c ∧ c ≤ 'z')) ||
  (decide ('0' ≤ c ∧ c ≤ '9')) || c == '.' || c == '_' || c == '-'

/-- Worker for `re.sub(r"[^A-Za-z0-9._-]+", "_", s)` (line 38): each
maximal run of disallowed characters becomes one underscore. -/
def safeIdAux : Bool → List Char → List Char
  | _, [] => []
  | inRun, c :: rest =>
    if idOkChar c then c :: safeIdAux false rest
    else if inRun then safeIdAux true rest
    else '_' :: safeIdAux true rest

/-- Embeds `safe_id` (lines 36-39) on a string input (the source first applies
`str(s)`; conversion of non-string inputs is `pyStr` below). -/
def safe_id (s : String) : String := ⟨(safeIdAux false s.data).take 80⟩

/-- Python/JSON values as returned by `response.json()` and manipulated by
the script.  JSON numbers are modelled as integers (the script never
computes with numbers, it only tests truthiness and stringifies ids);
objects are association lists with the first binding of a key winning,
matching `dict` lookup. -/
inductive Json where
  | null : Json
  | bool : Bool → Json
  | num : Int → Json
  | str : String → Json
  | arr : List Json → Json
  | obj : List (String × Json) → Json

/-- Python truthiness (`bool(x)`) on the modelled values: `None`, `False`,
`0`, `""`, `[]` and `{}` are falsy. -/
def Json.truthy : Json → Bool
  | .null => false
  | .bool b => b
  | .num n => decide (n ≠ 0)
  | .str s => decide (s ≠ "")
  | .arr l => !l.isEmpty
  | .obj l => !l.isEmpty

/-- First binding of a key in an object's field list (`dict` lookup). -/
def lookupField : List (String × Json) → String → Option Json
  | [], _ => none
  | (k, v) :: rest, key => if k = key then some v else lookupField rest key

/-- Embeds `d.get(k)` on a mapping: `none` models both a missing key and the
`AttributeError` a non-mapping would raise (callers distinguish the two
by matching on the shape of `d` first, as the embedding of each call site
does). -/
def jget : Json → String → Option Json
  | .obj fs, k => lookupField fs k
  | _, _ => none

/-- Embeds `d.get(k)` with Python's `None` default, as a `Json` value. -/
def jgetD (d : Json) (k : String) : Json := (jget d k).getD Json.null

/-- Python `a or b`: `a` when `a` is truthy, else `b`. -/
def pyOr (a b : Json) : Json := if a.truthy then a else b

/-- Python `str(x)` for the scalar values the script can receive as a
workflow id or compare with; `none` models containers (`str` of a list or
dict, which the script would then feed to `re.sub`, raising; no claim
exercises that path). -/
def pyStr : Json → Option String
  | .str s => some s
  | .num n => some (toString n)
  | .bool b => some (if b then "True" else "False")
  | .null => some "None"
  | _ => none

/-- An HTTP response as the script observes it through `requests`:
the status code, the raw body text (used only by the 400 branch), and the
parsed JSON body (`none` when `r.json()` would raise). -/
structure HttpResponse where
  status : Nat
  text : String
  json : Option Json

/-- The remote n8n instance, determined by the response it gives to each
GET request (path relative to the base URL, query parameters).  The
script is single-threaded and sends each request at most once per loop
position, so a response function determines a whole run. -/
structure Server where
  respond : String → List (String × String) → HttpResponse

/-- The configuration the startup code builds (lines 13-18 and 25-26):
normalized base URL, API key, TLS-verification flag, timeout seconds. -/
structure Config where
  baseUrl : String
  apiKey : String
  verifyTls : Bool
  timeout : Int

/-- The ways the script terminates with an error.  Each constructor is one
`raise SystemExit` site or one uncaught exception of the source:
`auth` (line 52), `badRequest` with resolved URL, query params and the
body truncated to 500 characters (line 54), `httpError` from
`raise_for_status` (line 58), `jsonDecodeError` from `r.json()` on a
non-JSON body (line 59), `attrError` for `.get` on a non-mapping,
`typeError` for `re.sub` on a non-string, `noListing` (line 70) and
`noWorkflow` (line 86). -/
inductive Fatal where
  | auth : Fatal
  | badRequest : String → List (String × String) → String → Fatal
  | httpError : Nat → Fatal
  | jsonDecodeError : Fatal
  | attrError : Fatal
  | typeError : Fatal
  | noListing : Fatal
  | noWorkflow : String → Fatal
deriving DecidableEq

/-- Embeds `path.lstrip("/")` (line 48). -/
def lstripSlash (p : String) : String := ⟨p.data.dropWhile (fun c => c == '/')⟩

/-- Embeds `urljoin(N8N_BASE_URL, path.lstrip("/"))` (line 48).  The startup code
guarantees the base URL ends with `/`, and the stripped path is relative,
so `urljoin` is string concatenation here. -/
def resolveUrl (base path : String) : String := base ++ lstripSlash path

/-- Python `s[:n]` on a string. -/
def strTake (n : Nat) (s : String) : String := ⟨s.data.take n⟩

/-- Embeds `api_get` (lines 47-59) as a function of the server's response.
`Except.error` models `raise SystemExit` / an uncaught exception ending
the process; `.ok none` models the `return None` of the 404 branch;
`raise_for_status` raises exactly for statuses in `[400, 600)`. -/
def api_get (cfg : Config) (srv : Server) (path : String)
    (params : List (String × String)) : Except Fatal (Option Json) :=
  if (srv.respond path params).status = 401 then .error .auth
  else if (srv.respond path params).status = 400 then
    .error (.badRequest (resolveUrl cfg.baseUrl path) params
      (strTake 500 (srv.respond path params).text))
  else if (srv.respond path params).status = 404 then .ok none
  else if 400 ≤ (srv.respond path params).status ∧
      (srv.respond path params).status < 600 then
    .error (.httpError (srv.respond path params).status)
  else
    match (srv.respond path params).json with
    | some j => .ok (some j)
    | none => .error .jsonDecodeError

/-- The extraction both listing branches apply to a non-`None` response
(lines 64-66 and 71-73): a list is returned as is, otherwise
`data.get("data") or data.get("items") or []` (Python `or`, so a falsy
`data` value falls through); `.get` on a non-mapping raises. -/
def extractListing : Json → Except Fatal Json
  | Json.arr l => .ok (Json.arr l)
  | Json.obj fs =>
      .ok (pyOr (jgetD (Json.obj fs) "data")
        (pyOr (jgetD (Json.obj fs) "items") (Json.arr [])))
  | _ => .error .attrError

/-- Embeds `list_workflows` (lines 61-73): versioned endpoint with the
`active=true` filter first; on 404 the legacy endpoint with no
parameters; if that is also 404, `SystemExit` (line 70). -/
def list_workflows (cfg : Config) (srv : Server) : Except Fatal Json :=
  match api_get cfg srv "/api/v1/workflows" [("active", "true")] with
  | .error e => .error e
  | .ok (some d) => extractListing d
  | .ok none =>
    match api_get cfg srv "/rest/workflows" [] with
    | .error e => .error e
    | .ok (some d) => extractListing d
    | .ok none => .error .noListing

/-- Embeds `get_workflow` (lines 75-86) on an already stringified id: versioned
detail endpoint, then the legacy one, else `SystemExit` (line 86). -/
def get_workflow (cfg : Config) (srv : Server) (wid : String) :
    Except Fatal Json :=
  match api_get cfg srv ("/api/v1/workflows/" ++ wid) [] with
  | .error e => .error e
  | .ok (some d) => .ok d
  | .ok none =>
    match api_get cfg srv ("/rest/workflows/" ++ wid) [] with
    | .error e => .error e
    | .ok (some d) => .ok d
    | .ok none => .error (.noWorkflow wid)

/-- Embeds `OUT_DIR` (line 16). -/
def OUT_DIR : String := "n8n_workflows_export"

/-- The mutable state of the export loop (lines 91-111): the per-workflow
file writes performed so far (path, JSON value written), the
`all_workflows_data` accumulator, and the `exported` counter. -/
structure LoopSt where
  files : List (String × Json)
  bundle : List Json
  exported : Nat

/-- One iteration of `for w in workflows` (lines 93-111), in source
order: read `w.get("id")` and skip silently when falsy (lines 94-96);
stringify the id and fetch the detail (line 98, which can end the
process); compute `detail.get("name") or w.get("name") or "workflow"`
(line 100); append the detail to the bundle (line 102); build the file
name with `safe_name` (line 104, raising on a non-string name); write the
file (lines 105-108) and bump the counter (line 111). -/
def exportStep (cfg : Config) (srv : Server) (st : LoopSt) (w : Json) :
    LoopSt × Option Fatal :=
  match w with
  | Json.obj _ =>
    if (jgetD w "id").truthy then
      match pyStr (jgetD w "id") with
      | none => (st, some .typeError)
      | some wid =>
        match get_workflow cfg srv wid with
        | .error e => (st, some e)
        | .ok detail =>
          match detail with
          | Json.obj _ =>
            let namev := pyOr (jgetD detail "name")
              (pyOr (jgetD w "name") (Json.str "workflow"))
            let st1 : LoopSt := { st with bundle := st.bundle ++ [detail] }
            match namev with
            | Json.str nm =>
              ({ st1 with
                  files := st1.files ++
                    [(OUT_DIR ++ "/" ++ safe_name nm ++ ".json", detail)],
                  exported := st1.exported + 1 }, none)
            | _ => (st1, some .typeError)
          | _ => (st, some .attrError)
    else (st, none)
  | _ => (st, some .attrError)

/-- The whole `for` loop: iterate `exportStep` until the list is done or
an iteration ends the process; on an error the state reached so far is
returned together with the error (files already written stay written). -/
def exportLoop (cfg : Config) (srv : Server) :
    LoopSt → List Json → LoopSt × Option Fatal
  | st, [] => (st, none)
  | st, w :: ws =>
    match exportStep cfg srv st w with
    | (st1, none) => exportLoop cfg srv st1 ws
    | (st1, some e) => (st1, some e)

/-- The two bundle writes after the loop (lines 113-121): `n8n_data.json`
inside `OUT_DIR` and in the current working directory, both holding the
accumulated array. -/
def afterLoopWrites (st : LoopSt) : List (String × Json) :=
  st.files ++ [(OUT_DIR ++ "/n8n_data.json", Json.arr st.bundle),
    ("n8n_data.json", Json.arr st.bundle)]

/-- The whole post-startup program (lines 88-124): enumerate, loop,
write the two bundles.  The result is the list of file writes performed,
in order, and either the final `exported` count (normal exit, line 123)
or the fatal error that ended the process.  A listing result that is not
a JSON array would be iterated by Python as an arbitrary iterable (dict
keys, string characters); the script would then fail at `w.get("id")`,
summarized here as one error without modelling the per-element order. -/
def runProg (cfg : Config) (srv : Server) :
    List (String × Json) × Except Fatal Nat :=
  match list_workflows cfg srv with
  | .error e => ([], .error e)
  | .ok (Json.arr ws) =>
    match exportLoop cfg srv ⟨[], [], 0⟩ ws with
    | (st, none) => (afterLoopWrites st, .ok st.exported)
    | (st, some e) => (st.files, .error e)
  | .ok _ => ([], .error .attrError)

/-- Python `int(s)` for a decimal string (line 18): strip whitespace,
optional sign, then digits with single underscores allowed only between
digits; `none` models the `ValueError` of any other input.  (Non-ASCII
decimal digits, accepted by CPython, are not modelled; no claim uses
them.) -/
def intDigitsAux : Nat → List Char → Option Nat
  | acc, [] => some acc
  | _, ['_'] => none
  | acc, '_' :: c :: rest =>
    if c.isDigit then intDigitsAux (acc * 10 + (c.toNat - '0'.toNat)) rest
    else none
  | acc, c :: rest =>
    if c.isDigit then intDigitsAux (acc * 10 + (c.toNat - '0'.toNat)) rest
    else none

/-- The digit part of `int(s)`: at least one leading digit, then
`intDigitsAux`. -/
def intDigits : List Char → Option Nat
  | [] => none
  | c :: rest =>
    if c.isDigit then intDigitsAux (c.toNat - '0'.toNat) rest else none

/-- Python `int(s)` on a decimal string literal; see `intDigitsAux`. -/
def pyIntParse (s : String) : Option Int :=
  match stripWsL s.data with
  | '+' :: rest => (intDigits rest).map (fun n => (n : Int))
  | '-' :: rest => (intDigits rest).map (fun n => -(n : Int))
  | l => (intDigits l).map (fun n => (n : Int))

/-- The process environment, i.e. `os.getenv` (after `load_dotenv` merged
the `.env` file into it). -/
structure Env where
  get : String → Option String

/-- The three ways the startup code (lines 13-28) can terminate the
process: the uncaught `ValueError` from `int(os.getenv("HTTP_TIMEOUT",
"60"))` on line 18, and the two `SystemExit` configuration checks on
lines 20-23. -/
inductive StartupErr where
  | timeoutValueError : StartupErr
  | missingBaseUrl : StartupErr
  | missingApiKey : StartupErr
deriving DecidableEq

/-- Python `str.strip()` on a `String`. -/
def pyStrip (s : String) : String := ⟨stripWsL s.data⟩

/-- ASCII lowering, enough for `.lower()` compared against
`("0", "false", "no")` (line 17). -/
def asciiLower (c : Char) : Char :=
  if decide ('A' ≤ c ∧ c ≤ 'Z') then Char.ofNat (c.toNat + 32) else c

/-- Python `str.lower()` restricted to ASCII (see `asciiLower`). -/
def pyLower (s : String) : String := ⟨s.data.map asciiLower⟩

/-- Does the string end with `/` (line 25)? -/
def endsWithSlash (s : String) : Bool :=
  match s.data.getLast? with
  | some c => c == '/'
  | none => false

/-- Successful startup: the configuration, plus the fact that line 28
(`Path(OUT_DIR).mkdir(parents=True, exist_ok=True)`) has run; the
directory is created exactly when startup reaches the end of line 28,
i.e. exactly on the `.ok` outcome. -/
structure StartupOk where
  config : Config
  outDirCreated : Bool

/-- The module-level startup code (lines 13-28), in source order: read
and strip `N8N_BASE_URL` and `N8N_API_KEY` (lines 13-14, no failure
possible), compute `VERIFY_TLS` (line 17), evaluate
`int(os.getenv("HTTP_TIMEOUT", "60"))` (line 18, `ValueError` on a bad
literal), THEN run the two required-configuration checks (lines 20-23),
normalize the base URL (lines 25-26) and create the output directory
(line 28). -/
def startup (env : Env) : Except StartupErr StartupOk :=
  let base := pyStrip ((env.get "N8N_BASE_URL").getD "")
  let key := pyStrip ((env.get "N8N_API_KEY").getD "")
  let vt := pyLower ((env.get "VERIFY_TLS").getD "true")
  let verify := !(vt == "0" || vt == "false" || vt == "no")
  match pyIntParse ((env.get "HTTP_TIMEOUT").getD "60") with
  | none => .error .timeoutValueError
  | some t =>
    if base = "" then .error .missingBaseUrl
    else if key = "" then .error .missingApiKey
    else
      .ok ⟨⟨if endsWithSlash base then base else base ++ "/", key, verify, t⟩,
        true⟩

/-- Decidable "no run of two or more whitespace characters": no two
adjacent characters of the list are both whitespace. -/
def noWsRunL : List Char → Bool
  | a :: b :: rest => !(isPySpace a && isPySpace b) && noWsRunL (b :: rest)
  | _ => true

/-- Is the head (if any) a non-whitespace character? -/
def headNotSpace : List Char → Bool
  | [] => true
  | c :: _ => !isPySpace c

/-- Modelled from claim C2's wording, not from the source: the ASCII
control characters, i.e. the C0 range `U+0000`-`U+001F` together with DEL
`U+007F`.  The source regex on line 32 covers only `\x00-\x1F`, which is
what the counterexample below exploits. -/
def asciiControlChar (c : Char) : Bool :=
  decide (c.toNat ≤ 0x1f ∨ c.toNat = 0x7f)

/-- Modelled from claim C3's wording, not from the source: "returns the
response's `data` field, then its `items` field, then an empty sequence",
read as presence-based field lookup — if a `data` field is present its
value is returned, otherwise `items` if present, otherwise `[]`.  The
source instead chains with Python `or` (truthiness), see
`extractListing`. -/
def specExtractListing : Json → Json
  | Json.arr l => Json.arr l
  | d =>
    match jget d "data" with
    | some v => v
    | none =>
      match jget d "items" with
      | some v => v
      | none => Json.arr []

/-- A configuration as the startup code would build it; only `baseUrl`
is ever read by `api_get` (for the 400 error message). -/
def cfgTest : Config := ⟨"https://example.test/", "key", true, 60⟩

/-- A server whose versioned listing endpoint answers 200 with
`{"data": [], "items": ["x"]}` — a present but empty (falsy) `data`
field next to a non-empty `items` field. -/
def srvC3 : Server :=
  ⟨fun path _ =>
    if path = "/api/v1/workflows" then
      ⟨200, "", some (Json.obj [("data", Json.arr []),
        ("items", Json.arr [Json.str "x"])])⟩
    else ⟨404, "", none⟩⟩

/-- A server answering 200 with a bare array, for the amended C3
witness. -/
def srvC3bare : Server :=
  ⟨fun path _ =>
    if path = "/api/v1/workflows" then
      ⟨200, "", some (Json.arr [Json.num 1])⟩
    else ⟨404, "", none⟩⟩

/-- A server that always answers 401. -/
def srv401 : Server := ⟨fun _ _ => ⟨401, "", none⟩⟩

/-- A server that always answers 400 with the body `oops`. -/
def srv400 : Server := ⟨fun _ _ => ⟨400, "oops", none⟩⟩

/-- A server that always answers 404. -/
def srv404 : Server := ⟨fun _ _ => ⟨404, "", none⟩⟩

/-- A server that always answers 500. -/
def srv500 : Server := ⟨fun _ _ => ⟨500, "boom", none⟩⟩

/-- A server that always answers 200 with the JSON body `[]`. -/
def srv200 : Server := ⟨fun _ _ => ⟨200, "[]", some (Json.arr [])⟩⟩

/-- Workflow summary 1 of the end-to-end scenario. -/
def sum1 : Json := Json.obj [("id", Json.str "1"), ("name", Json.str "Foo/Bar")]

/-- Workflow summary 2 of the end-to-end scenario (empty name). -/
def sum2 : Json := Json.obj [("id", Json.str "2"), ("name", Json.str "")]

/-- Workflow detail 1 of the end-to-end scenario. -/
def det1 : Json := Json.obj [("id", Json.str "1"),
  ("name", Json.str "Foo/Bar"), ("nodes", Json.arr [])]

/-- Workflow detail 2 of the end-to-end scenario (no name field). -/
def det2 : Json := Json.obj [("id", Json.str "2"), ("nodes", Json.arr [])]

/-- The server of the end-to-end scenario of claim C6: the versioned
listing returns both summaries, the versioned detail endpoints return the
two details, everything else is 404. -/
def srv6 : Server :=
  ⟨fun path _ =>
    if path = "/api/v1/workflows" then ⟨200, "", some (Json.arr [sum1, sum2])⟩
    else if path = "/api/v1/workflows/1" then ⟨200, "", some det1⟩
    else if path = "/api/v1/workflows/2" then ⟨200, "", some det2⟩
    else ⟨404, "", none⟩⟩

/-- An environment with a malformed `HTTP_TIMEOUT` and nothing else set
(in particular, no base URL and no API key). -/
def envBadTimeout : Env :=
  ⟨fun k => if k = "HTTP_TIMEOUT" then some "sixty" else none⟩

example : pyIntParse " 60 " = some 60 := rfl

example : pyIntParse "-1_0" = some (-10) := rfl

example : pyIntParse "sixty" = none := rfl

example : pyIntParse "6_" = none := rfl

example : pyIntParse "" = none := rfl

theorem mem_replaceIllegal {c : Char} {l : List Char}
    (h : c ∈ replaceIllegal l) : illegalFnameChar c = false := by
  rcases List.mem_map.mp h with ⟨a, _, ha⟩
  by_cases hia : illegalFnameChar a = true
  · rw [if_pos hia] at ha
    rw [← ha]
    rfl
  · rw [if_neg hia] at ha
    rw [← ha]
    exact Bool.not_eq_true _ ▸ hia

theorem mem_collapseWsAux {c : Char} :
    ∀ (l : List Char) (b : Bool), c ∈ collapseWsAux b l → c = ' ' ∨ c ∈ l := by
  intro l
  induction l with
  | nil => intro b h; simp [collapseWsAux] at h
  | cons a rest ih =>
    intro b h
    simp only [collapseWsAux] at h
    by_cases hsp : isPySpace a = true
    · rw [if_pos hsp] at h
      cases b with
      | true =>
        rw [if_pos rfl] at h
        rcases ih true h with h1 | h1
        · exact Or.inl h1
        · exact Or.inr (List.mem_cons_of_mem _ h1)
      | false =>
        rw [if_neg (by simp)] at h
        rcases List.mem_cons.mp h with h1 | h1
        · exact Or.inl h1
        · rcases ih true h1 with h2 | h2
          · exact Or.inl h2
          · exact Or.inr (List.mem_cons_of_mem _ h2)
    · rw [if_neg hsp] at h
      rcases List.mem_cons.mp h with h1 | h1
      · exact Or.inr (h1 ▸ List.mem_cons_self _ _)
      · rcases ih false h1 with h2 | h2
        · exact Or.inl h2
        · exact Or.inr (List.mem_cons_of_mem _ h2)

theorem mem_lstripWsL {c : Char} :
    ∀ l : List Char, c ∈ lstripWsL l → c ∈ l := by
  intro l
  induction l with
  | nil => intro h; simp [lstripWsL] at h
  | cons a rest ih =>
    intro h
    simp only [lstripWsL] at h
    by_cases hsp : isPySpace a = true
    · rw [if_pos hsp] at h
      exact List.mem_cons_of_mem _ (ih h)
    · rw [if_neg hsp] at h
      exact h

theorem mem_rstripWsL {c : Char} :
    ∀ l : List Char, c ∈ rstripWsL l → c ∈ l := by
  intro l
  induction l with
  | nil => intro h; simp [rstripWsL] at h
  | cons a rest ih =>
    intro h
    simp only [rstripWsL] at h
    cases hr : rstripWsL rest with
    | nil =>
      rw [hr] at h
      by_cases hsp : isPySpace a = true
      · rw [if_pos hsp] at h
        simp at h
      · rw [if_neg hsp] at h
        rcases List.mem_cons.mp h with h1 | h1
        · exact h1 ▸ List.mem_cons_self _ _
        · simp at h1
    | cons d r =>
      rw [hr] at h
      rcases List.mem_cons.mp h with h1 | h1
      · exact h1 ▸ List.mem_cons_self _ _
      · exact List.mem_cons_of_mem _ (ih (hr ▸ h1))

theorem noWsRunL_tail {a : Char} {l : List Char}
    (h : noWsRunL (a :: l) = true) : noWsRunL l = true := by
  cases l with
  | nil => rfl
  | cons b rest =>
    simp only [noWsRunL, Bool.and_eq_true] at h
    exact h.2

theorem collapseWsAux_ok :
    ∀ l : List Char,
      (∀ b, noWsRunL (collapseWsAux b l) = true) ∧
      headNotSpace (collapseWsAux true l) = true := by
  intro l
  induction l with
  | nil => exact ⟨fun _ => rfl, rfl⟩
  | cons a rest ih =>
    by_cases hsp : isPySpace a = true
    · constructor
      · intro b
        cases b with
        | true =>
          simp only [collapseWsAux, if_pos hsp, if_pos rfl]
          exact ih.1 true
        | false =>
          simp only [collapseWsAux, if_pos hsp,
            if_neg (by simp : ¬(false = true))]
          cases hX : collapseWsAux true rest with
          | nil => rfl
          | cons d r =>
            have hh := ih.2
            rw [hX] at hh
            simp only [headNotSpace, Bool.not_eq_true'] at hh
            have h1 := ih.1 true
            rw [hX] at h1
            simp only [noWsRunL, Bool.and_eq_true]
            refine ⟨?_, h1⟩
            rw [hh]
            rfl
      · simp only [collapseWsAux, if_pos hsp, if_pos rfl]
        exact ih.2
    · constructor
      · intro b
        simp only [collapseWsAux, if_neg hsp]
        cases hX : collapseWsAux false rest with
        | nil => rfl
        | cons d r =>
          have h1 := ih.1 false
          rw [hX] at h1
          simp only [noWsRunL, Bool.and_eq_true]
          refine ⟨?_, h1⟩
          rw [Bool.not_eq_true] at hsp
          rw [hsp]
          rfl
      · simp only [collapseWsAux, if_neg hsp, headNotSpace]
        rw [Bool.not_eq_true] at hsp
        rw [hsp]
        rfl

theorem noWsRunL_lstripWsL :
    ∀ l : List Char, noWsRunL l = true → noWsRunL (lstripWsL l) = true := by
  intro l
  induction l with
  | nil => intro h; exact h
  | cons a rest ih =>
    intro h
    simp only [lstripWsL]
    by_cases hsp : isPySpace a = true
    · rw [if_pos hsp]
      exact ih (noWsRunL_tail h)
    · rw [if_neg hsp]
      exact h

theorem rstripWsL_cons {l : List Char} {d : Char} {r : List Char}
    (h : rstripWsL l = d :: r) : ∃ r2, l = d :: r2 := by
  cases l with
  | nil => simp [rstripWsL] at h
  | cons a rest =>
    simp only [rstripWsL] at h
    cases hr : rstripWsL rest with
    | nil =>
      rw [hr] at h
      by_cases hsp : isPySpace a = true
      · rw [if_pos hsp] at h
        cases h
      · rw [if_neg hsp] at h
        injection h with h1 h2
        exact ⟨rest, by rw [h1]⟩
    | cons e r3 =>
      rw [hr] at h
      injection h with h1 h2
      exact ⟨rest, by rw [h1]⟩

theorem noWsRunL_rstripWsL :
    ∀ l : List Char, noWsRunL l = true → noWsRunL (rstripWsL l) = true := by
  intro l
  induction l with
  | nil => intro h; exact h
  | cons a rest ih =>
    intro h
    simp only [rstripWsL]
    cases hr : rstripWsL rest with
    | nil =>
      by_cases hsp : isPySpace a = true
      · rw [if_pos hsp]
        rfl
      · rw [if_neg hsp]
        rfl
    | cons d r =>
      have htail : noWsRunL (d :: r) = true := by
        rw [← hr]
        exact ih (noWsRunL_tail h)
      obtain ⟨r2, hrest⟩ := rstripWsL_cons hr
      simp only [noWsRunL, Bool.and_eq_true]
      refine ⟨?_, htail⟩
      rw [hrest] at h
      simp only [noWsRunL, Bool.and_eq_true] at h
      exact h.1

theorem noWsRunL_take :
    ∀ (l : List Char) (n : Nat), noWsRunL l = true →
      noWsRunL (l.take n) = true := by
  intro l
  induction l with
  | nil => intro n h; rw [List.take_nil]; rfl
  | cons a rest ih =>
    intro n h
    cases n with
    | zero => rfl
    | succ m =>
      rw [List.take_succ_cons]
      cases rest with
      | nil => rw [List.take_nil]; rfl
      | cons d r2 =>
        cases m with
        | zero => rfl
        | succ k =>
          rw [List.take_succ_cons]
          simp only [noWsRunL, Bool.and_eq_true]
          constructor
          · simp only [noWsRunL, Bool.and_eq_true] at h
            exact h.1
          · have h2 := ih (k + 1) (noWsRunL_tail h)
            rw [List.take_succ_cons] at h2
            exact h2

/-- Claim C1 counterexample: `safe_name` applied to a single space returns
the empty string, so the output is NOT non-empty for every input.  The
`or "workflow"` fallback on line 31 runs before sanitization, so an input
that is non-empty but sanitizes to empty is not caught. -/
theorem safe_name_c1_counterexample : safe_name " " = "" := rfl

/-- Claim C1 (amended): the fallback to the literal `"workflow"` applies
exactly to the empty input string (before sanitization); for the empty
input the output is the non-empty string `"workflow"`.  A non-empty input
may still sanitize to the empty string (see the counterexample). -/
theorem safe_name_c1_amended : safe_name "" = "workflow" := rfl

/-- Claim C2 counterexample: DEL (`U+007F`) is an ASCII control character,
but the regex on line 32 only replaces `\x00-\x1F`, so `safe_name` passes
DEL through and its output can contain an ASCII control character. -/
theorem safe_name_c2_counterexample :
    safe_name "\x7F" = "\x7F" ∧
    (safe_name "\x7F").data.any asciiControlChar = true := ⟨rfl, rfl⟩

/-- Claim C2 (amended): for every input string, the output of `safe_name`
contains none of `<>:"/\|?*` and no control character in `U+0000`-`U+001F`
(DEL `U+007F`, though an ASCII control character, is not replaced),
contains no run of two or more consecutive whitespace characters, and has
length at most 120. -/
theorem safe_name_c2_amended (s : String) :
    (safe_name s).data.all (fun c => !illegalFnameChar c) = true ∧
    noWsRunL (safe_name s).data = true ∧
    (safe_name s).length ≤ 120 := by
  have hdata : (safe_name s).data =
      (stripWsL (collapseWs (replaceIllegal
        (if s = "" then "workflow" else s).data))).take 120 := rfl
  refine ⟨?_, ?_, ?_⟩
  · rw [List.all_eq_true]
    intro c hc
    rw [hdata] at hc
    have hc1 := List.take_subset _ _ hc
    simp only [stripWsL] at hc1
    have hc2 := mem_lstripWsL _ (mem_rstripWsL _ hc1)
    rcases mem_collapseWsAux _ false hc2 with h1 | h1
    · rw [h1]
      rfl
    · rw [mem_replaceIllegal h1]
      rfl
  · rw [hdata]
    refine noWsRunL_take _ _ ?_
    simp only [stripWsL]
    exact noWsRunL_rstripWsL _ (noWsRunL_lstripWsL _ ((collapseWsAux_ok _).1 false))
  · show (safe_name s).data.length ≤ 120
    rw [hdata, List.length_take]
    exact min_le_left _ _

theorem mem_safeIdAux {c : Char} :
    ∀ (l : List Char) (b : Bool), c ∈ safeIdAux b l → idOkChar c = true := by
  intro l
  induction l with
  | nil => intro b h; simp [safeIdAux] at h
  | cons a rest ih =>
    intro b h
    simp only [safeIdAux] at h
    by_cases hok : idOkChar a = true
    · rw [if_pos hok] at h
      rcases List.mem_cons.mp h with h1 | h1
      · rw [h1]
        exact hok
      · exact ih false h1
    · rw [if_neg hok] at h
      cases b with
      | true =>
        rw [if_pos rfl] at h
        exact ih true h
      | false =>
        rw [if_neg (by simp)] at h
        rcases List.mem_cons.mp h with h1 | h1
        · rw [h1]
          rfl
        · exact ih true h1

/-- Claim C8: for every input, the output of `safe_id` contains only
characters from `[A-Za-z0-9._-]` (each run of other characters became one
underscore, which is itself in the class) and has length at most 80
(lines 36-39). -/
theorem safe_id_c8 (s : String) :
    (safe_id s).data.all idOkChar = true ∧ (safe_id s).length ≤ 80 := by
  have hdata : (safe_id s).data = (safeIdAux false s.data).take 80 := rfl
  constructor
  · rw [List.all_eq_true]
    intro c hc
    rw [hdata] at hc
    exact mem_safeIdAux _ false (List.take_subset _ _ hc)
  · show (safe_id s).data.length ≤ 80
    rw [hdata, List.length_take]
    exact min_le_left _ _

/-- Claim C3 counterexample: on the listing response
`{"data": [], "items": ["x"]}`, the code returns the `items` value, not
the present `data` field — `data.get("data") or data.get("items") or []`
falls through on the falsy empty array, so `list_workflows` does not
return "the response's `data` field" as the claim states. -/
theorem list_workflows_c3_counterexample :
    list_workflows cfgTest srvC3 = .ok (Json.arr [Json.str "x"]) ∧
    specExtractListing (Json.obj [("data", Json.arr []),
      ("items", Json.arr [Json.str "x"])]) = Json.arr [] ∧
    Json.arr [Json.str "x"] ≠ Json.arr [] := by
  refine ⟨rfl, rfl, ?_⟩
  intro h
  simp at h

/-- Claim C3 (amended): for a non-null listing response, a sequence is
returned unchanged; a mapping yields its `data` value when that value is
truthy (e.g. a non-empty sequence), else its `items` value when truthy,
else the empty sequence.  (A present-but-falsy `data` field is passed
over.)  In particular a mapping `{"data": [...]}` with no `items` field
always yields its `data` sequence — when `data` is the empty array the
`or []` default coincides with it. -/
theorem list_workflows_c3_amended (cfg : Config) (srv : Server) (d : Json)
    (h1 : (srv.respond "/api/v1/workflows" [("active", "true")]).status = 200)
    (h2 : (srv.respond "/api/v1/workflows" [("active", "true")]).json = some d) :
    (∀ l, d = Json.arr l → list_workflows cfg srv = .ok (Json.arr l)) ∧
    (∀ fs, d = Json.obj fs →
      list_workflows cfg srv = .ok
        (if (jgetD d "data").truthy then jgetD d "data"
         else if (jgetD d "items").truthy then jgetD d "items"
         else Json.arr [])) ∧
    (∀ l, d = Json.obj [("data", Json.arr l)] →
      list_workflows cfg srv = .ok (Json.arr l)) := by
  have hget : api_get cfg srv "/api/v1/workflows" [("active", "true")] =
      .ok (some d) := by
    unfold api_get
    rw [h1, if_neg (by omega), if_neg (by omega), if_neg (by omega),
      if_neg (by omega), h2]
  have hlw : list_workflows cfg srv = extractListing d := by
    unfold list_workflows
    rw [hget]
  refine ⟨?_, ?_, ?_⟩
  · intro l hd
    subst hd
    rw [hlw]
    rfl
  · intro fs hd
    subst hd
    rw [hlw]
    rfl
  · intro l hd
    subst hd
    rw [hlw]
    cases l with
    | nil => rfl
    | cons x xs => rfl

/-- Witness for the amended claim C3, at the bare-array server: the
listing is returned unchanged. -/
theorem list_workflows_c3_amended_witness :
    list_workflows cfgTest srvC3bare = .ok (Json.arr [Json.num 1]) :=
  (list_workflows_c3_amended cfgTest srvC3bare (Json.arr [Json.num 1])
    rfl rfl).1 _ rfl

/-- Claim C4: status handling of `api_get` (lines 47-59).  401 aborts
with the authorization error; 400 aborts with the resolved URL, the query
parameters, and the body truncated to 500 characters; 404 returns null;
any other non-success status — i.e. any other status in the client/server
error range `[400, 600)`, exactly the statuses `raise_for_status`
raises for — is the generic HTTP error; a success (2xx) response returns
the parsed JSON body. -/
theorem api_get_c4 (cfg : Config) (srv : Server) (path : String)
    (params : List (String × String)) :
    ((srv.respond path params).status = 401 →
      api_get cfg srv path params = .error .auth) ∧
    ((srv.respond path params).status = 400 →
      api_get cfg srv path params = .error (.badRequest
        (resolveUrl cfg.baseUrl path) params
        (strTake 500 (srv.respond path params).text))) ∧
    ((srv.respond path params).status = 404 →
      api_get cfg srv path params = .ok none) ∧
    (∀ st2, (srv.respond path params).status = st2 → 400 ≤ st2 →
      st2 < 600 → st2 ≠ 400 → st2 ≠ 401 → st2 ≠ 404 →
      api_get cfg srv path params = .error (.httpError st2)) ∧
    (∀ j, 200 ≤ (srv.respond path params).status →
      (srv.respond path params).status < 300 →
      (srv.respond path params).json = some j →
      api_get cfg srv path params = .ok (some j)) := by
  refine ⟨?_, ?_, ?_, ?_, ?_⟩
  · intro h
    unfold api_get
    rw [h, if_pos rfl]
  · intro h
    unfold api_get
    rw [h, if_neg (by omega), if_pos rfl]
  · intro h
    unfold api_get
    rw [h, if_neg (by omega), if_neg (by omega), if_pos rfl]
  · intro st2 h h1 h2 h3 h4 h5
    unfold api_get
    rw [h, if_neg (by omega), if_neg (by omega), if_neg (by omega),
      if_pos (by omega)]
  · intro j h1 h2 h3
    unfold api_get
    rw [if_neg (by omega), if_neg (by omega), if_neg (by omega),
      if_neg (by omega), h3]

/-- Witness for claim C4: each branch of the theorem at a concrete
server. -/
theorem api_get_c4_witness :
    api_get cfgTest srv401 "/api/v1/workflows" [] = .error .auth ∧
    api_get cfgTest srv400 "/x" [] = .error (.badRequest
      (resolveUrl cfgTest.baseUrl "/x") [] (strTake 500 "oops")) ∧
    api_get cfgTest srv404 "/x" [] = .ok none ∧
    api_get cfgTest srv500 "/x" [] = .error (.httpError 500) ∧
    api_get cfgTest srv200 "/x" [] = .ok (some (Json.arr [])) :=
  ⟨(api_get_c4 cfgTest srv401 "/api/v1/workflows" []).1 rfl,
   (api_get_c4 cfgTest srv400 "/x" []).2.1 rfl,
   (api_get_c4 cfgTest srv404 "/x" []).2.2.1 rfl,
   (api_get_c4 cfgTest srv500 "/x" []).2.2.2.1 500 rfl (by decide)
     (by decide) (by decide) (by decide) (by decide),
   (api_get_c4 cfgTest srv200 "/x" []).2.2.2.2 (Json.arr []) (by decide)
     (by decide) rfl⟩

/-- Claim C5: when both the versioned and the legacy listing endpoints
answer 404, the run ends with the fatal "no usable listing endpoint"
error (line 70) having performed no file write at all — in particular
neither per-workflow files nor a bundle. -/
theorem runProg_c5 (cfg : Config) (srv : Server)
    (h1 : (srv.respond "/api/v1/workflows" [("active", "true")]).status = 404)
    (h2 : (srv.respond "/rest/workflows" []).status = 404) :
    runProg cfg srv = ([], .error .noListing) := by
  have e1 : api_get cfg srv "/api/v1/workflows" [("active", "true")] =
      .ok none := by
    unfold api_get
    rw [h1, if_neg (by omega), if_neg (by omega), if_pos rfl]
  have e2 : api_get cfg srv "/rest/workflows" [] = .ok none := by
    unfold api_get
    rw [h2, if_neg (by omega), if_neg (by omega), if_pos rfl]
  have hlw : list_workflows cfg srv = .error .noListing := by
    unfold list_workflows
    rw [e1, e2]
  unfold runProg
  rw [hlw]

/-- Witness for claim C5: the all-404 server. -/
theorem runProg_c5_witness :
    runProg cfgTest srv404 = ([], .error .noListing) :=
  runProg_c5 cfgTest srv404 rfl rfl

/-- Claim C6: the end-to-end scenario.  Workflow 1 is written to
`Foo_Bar.json` (its detail name `Foo/Bar` sanitized), workflow 2 to
`workflow.json` (detail has no name, summary name is empty, so the
literal fallback applies), and `n8n_data.json` holds the array of both
details in fetch order, written in the output directory and again in the
working directory; the final count is 2. -/
theorem runProg_c6 :
    runProg cfgTest srv6 =
      ([("n8n_workflows_export/Foo_Bar.json", det1),
        ("n8n_workflows_export/workflow.json", det2),
        ("n8n_workflows_export/n8n_data.json", Json.arr [det1, det2]),
        ("n8n_data.json", Json.arr [det1, det2])], .ok 2) := rfl

/-- Claim C7: a summary (a mapping) whose `id` field is missing or the
empty string is skipped silently by the loop body (lines 94-96): the
state — files written, bundle, `exported` counter — is unchanged and no
error occurs, and this holds for EVERY server, so no detail fetch can
have been performed. -/
theorem exportStep_c7 (cfg : Config) (srv : Server) (st : LoopSt)
    (fs : List (String × Json))
    (h : lookupField fs "id" = none ∨
      lookupField fs "id" = some (Json.str "")) :
    exportStep cfg srv st (Json.obj fs) = (st, none) := by
  have hfalse : (jgetD (Json.obj fs) "id").truthy = false := by
    rcases h with h | h <;> simp [jgetD, jget, h, Json.truthy]
  unfold exportStep
  rw [hfalse]
  rfl

/-- Witness for claim C7: a summary with a name but no id leaves a
concrete loop state untouched against a concrete server. -/
theorem exportStep_c7_witness :
    exportStep cfgTest srv6 ⟨[], [], 0⟩
      (Json.obj [("name", Json.str "x")]) = (⟨[], [], 0⟩, none) :=
  exportStep_c7 cfgTest srv6 ⟨[], [], 0⟩ [("name", Json.str "x")]
    (Or.inl rfl)

theorem exportStep_inv {cfg : Config} {srv : Server} {st st1 : LoopSt}
    {w : Json} (h1 : st.bundle.length = st.exported)
    (h2 : st.files.map Prod.snd = st.bundle)
    (h : exportStep cfg srv st w = (st1, none)) :
    st1.bundle.length = st1.exported ∧
    st1.files.map Prod.snd = st1.bundle := by
  cases w with
  | null => simp [exportStep] at h
  | bool b => simp [exportStep] at h
  | num n => simp [exportStep] at h
  | str s2 => simp [exportStep] at h
  | arr l => simp [exportStep] at h
  | obj fs =>
    simp only [exportStep] at h
    by_cases ht : (jgetD (Json.obj fs) "id").truthy
    · rw [if_pos ht] at h
      cases hps : pyStr (jgetD (Json.obj fs) "id") with
      | none =>
        rw [hps] at h
        simp at h
      | some wid =>
        rw [hps] at h
        dsimp only at h
        cases hgw : get_workflow cfg srv wid with
        | error e =>
          rw [hgw] at h
          simp at h
        | ok detail =>
          rw [hgw] at h
          dsimp only at h
          cases detail with
          | null => simp at h
          | bool b2 => simp at h
          | num n2 => simp at h
          | str s3 => simp at h
          | arr l2 => simp at h
          | obj dfs =>
            cases hnv : pyOr (jgetD (Json.obj dfs) "name")
                (pyOr (jgetD (Json.obj fs) "name") (Json.str "workflow")) with
            | str nm =>
              rw [hnv] at h
              simp only [Prod.mk.injEq, and_true] at h
              subst h
              constructor
              · simp [List.length_append, h1]
              · simp [List.map_append, h2]
            | null => rw [hnv] at h; simp at h
            | bool b3 => rw [hnv] at h; simp at h
            | num n3 => rw [hnv] at h; simp at h
            | arr l3 => rw [hnv] at h; simp at h
            | obj ofs => rw [hnv] at h; simp at h
    · rw [if_neg ht] at h
      injection h with ha hb
      subst ha
      exact ⟨h1, h2⟩

theorem exportLoop_inv {cfg : Config} {srv : Server} :
    ∀ (ws : List Json) (st stF : LoopSt),
      st.bundle.length = st.exported →
      st.files.map Prod.snd = st.bundle →
      exportLoop cfg srv st ws = (stF, none) →
      stF.bundle.length = stF.exported ∧
      stF.files.map Prod.snd = stF.bundle := by
  intro ws
  induction ws with
  | nil =>
    intro st stF h1 h2 h
    simp only [exportLoop, Prod.mk.injEq, and_true] at h
    subst h
    exact ⟨h1, h2⟩
  | cons w ws2 ih =>
    intro st stF h1 h2 h
    simp only [exportLoop] at h
    cases hstep : exportStep cfg srv st w with
    | mk st1 e =>
      rw [hstep] at h
      cases e with
      | none =>
        have hi := exportStep_inv h1 h2 hstep
        exact ih st1 stF hi.1 hi.2 h
      | some e2 => simp at h

/-- Claim C9: the loop invariant of the export loop (lines 91-111) and
the final bundle writes (lines 113-121).  Starting from any state in
which the accumulated bundle has as many elements as the `exported`
counter and is exactly the JSON values written to the per-workflow files
in order, any number of completed iterations preserves both properties;
and the post-loop writes are the bundle array, once in the output
directory and once in the working directory. -/
theorem exportLoop_c9 (cfg : Config) (srv : Server) (ws : List Json)
    (st stF : LoopSt) (h1 : st.bundle.length = st.exported)
    (h2 : st.files.map Prod.snd = st.bundle)
    (hloop : exportLoop cfg srv st ws = (stF, none)) :
    stF.bundle.length = stF.exported ∧
    stF.files.map Prod.snd = stF.bundle ∧
    afterLoopWrites stF = stF.files ++
      [(OUT_DIR ++ "/n8n_data.json", Json.arr stF.bundle),
       ("n8n_data.json", Json.arr stF.bundle)] := by
  have hi := exportLoop_inv ws st stF h1 h2 hloop
  exact ⟨hi.1, hi.2, rfl⟩

/-- Witness for claim C9: one completed iteration over workflow 1 of the
scenario server, starting from the empty state. -/
theorem exportLoop_c9_witness :
    ([det1] : List Json).length = 1 ∧
    ([("n8n_workflows_export/Foo_Bar.json", det1)] :
      List (String × Json)).map Prod.snd = [det1] ∧
    afterLoopWrites ⟨[("n8n_workflows_export/Foo_Bar.json", det1)], [det1], 1⟩ =
      [("n8n_workflows_export/Foo_Bar.json", det1)] ++
        [(OUT_DIR ++ "/n8n_data.json", Json.arr [det1]),
         ("n8n_data.json", Json.arr [det1])] :=
  exportLoop_c9 cfgTest srv6 [sum1] ⟨[], [], 0⟩
    ⟨[("n8n_workflows_export/Foo_Bar.json", det1)], [det1], 1⟩ rfl rfl rfl

/-- Claim C10: an `HTTP_TIMEOUT` environment value that is not a valid
integer literal makes the program die on line 18 with the uncaught
`ValueError` from `int(...)` — before the required-configuration checks
of lines 20-23 ever run (whatever `N8N_BASE_URL` / `N8N_API_KEY` hold)
and before the output directory creation of line 28, which happens only
on successful startup. -/
theorem startup_c10 (env : Env) (s : String)
    (hset : env.get "HTTP_TIMEOUT" = some s)
    (hbad : pyIntParse s = none) :
    startup env = .error .timeoutValueError ∧
    StartupErr.timeoutValueError ≠ StartupErr.missingBaseUrl ∧
    StartupErr.timeoutValueError ≠ StartupErr.missingApiKey ∧
    ∀ okv : StartupOk, startup env ≠ .ok okv := by
  have hmain : startup env = .error .timeoutValueError := by
    unfold startup
    rw [hset]
    simp only [Option.getD_some]
    rw [hbad]
  refine ⟨hmain, by decide, by decide, ?_⟩
  intro okv hok
  rw [hmain] at hok
  cases hok

/-- Witness for claim C10: with `HTTP_TIMEOUT=sixty` and no other
variables set, startup dies with the `ValueError`, not with the
missing-configuration messages, and never reaches the directory
creation. -/
theorem startup_c10_witness :
    startup envBadTimeout = .error .timeoutValueError ∧
    StartupErr.timeoutValueError ≠ StartupErr.missingBaseUrl ∧
    StartupErr.timeoutValueError ≠ StartupErr.missingApiKey ∧
    ∀ okv : StartupOk, startup envBadTimeout ≠ .ok okv :=
  startup_c10 envBadTimeout "sixty" rfl rfl
